import Mathlib

/-!
Shallow embedding of `drivers/clk/clk-gpio.c` (gpio controlled clock).

The GPIO hardware is modelled as a map from line numbers to levels
(`false` = low, `true` = high).  The gate record `clk_gpio` mirrors the
C struct of the same name; the three clock ops operate on the hardware
state explicitly.
-/

/-- GPIO hardware state: the current level of every line
(`false` = low, `true` = high). -/
def GpioState : Type := Nat → Bool

/-- `gpio_set_value(gpio, value)`: drive one line to a level. -/
def gpio_set_value (st : GpioState) (line : Nat) (value : Bool) : GpioState :=
  fun n => if n = line then value else st n

/-- `gpio_get_value(gpio)`: read the current level of one line. -/
def gpio_get_value (st : GpioState) (line : Nat) : Bool := st line

/-- Mirror of `struct clk_gpio`: the controlled line and the polarity. -/
structure clk_gpio where
  gpio : Nat
  active_low : Bool
deriving DecidableEq

/-- `clk_gpio_enable`: write the active level
(`value = gpio->active_low ? 0 : 1`). -/
def clk_gpio_enable (g : clk_gpio) (st : GpioState) : GpioState :=
  let value : Bool := if g.active_low then false else true
  gpio_set_value st g.gpio value

/-- `clk_gpio_disable`: write the inactive level
(`value = gpio->active_low ? 1 : 0`). -/
def clk_gpio_disable (g : clk_gpio) (st : GpioState) : GpioState :=
  let value : Bool := if g.active_low then true else false
  gpio_set_value st g.gpio value

/-- `clk_gpio_is_enabled`: read the line and return
`gpio->active_low ? !value : value`. -/
def clk_gpio_is_enabled (g : clk_gpio) (st : GpioState) : Bool :=
  let value := gpio_get_value st g.gpio
  if g.active_low then !value else value

theorem gpio_set_get (st : GpioState) (line : Nat) (v : Bool) :
    gpio_get_value (gpio_set_value st line v) line = v := by
  simp [gpio_get_value, gpio_set_value]

theorem gpio_set_set (st : GpioState) (line : Nat) (v w : Bool) :
    gpio_set_value (gpio_set_value st line v) line w = gpio_set_value st line w := by
  funext n
  simp only [gpio_set_value]
  by_cases h : n = line <;> simp [h]

/-- C4: for every polarity, `enable(); is_enabled()` yields `true` and
`disable(); is_enabled()` yields `false`; `enable` writes the active level
(low when `active_low`, high otherwise) and `disable` writes its inverse. -/
theorem enable_disable_round_trip (g : clk_gpio) (st : GpioState) :
    clk_gpio_is_enabled g (clk_gpio_enable g st) = true ∧
    clk_gpio_is_enabled g (clk_gpio_disable g st) = false ∧
    gpio_get_value (clk_gpio_enable g st) g.gpio = !g.active_low ∧
    gpio_get_value (clk_gpio_disable g st) g.gpio = g.active_low := by
  cases hal : g.active_low <;>
    simp [clk_gpio_is_enabled, clk_gpio_enable, clk_gpio_disable,
      gpio_get_value, gpio_set_value, hal]

/-- C7: `enable` and `disable` are idempotent: a second call in a row
changes neither the GPIO state nor the result of `is_enabled`. -/
theorem enable_disable_idempotent (g : clk_gpio) (st : GpioState) :
    clk_gpio_enable g (clk_gpio_enable g st) = clk_gpio_enable g st ∧
    clk_gpio_disable g (clk_gpio_disable g st) = clk_gpio_disable g st ∧
    clk_gpio_is_enabled g (clk_gpio_enable g (clk_gpio_enable g st)) =
      clk_gpio_is_enabled g (clk_gpio_enable g st) ∧
    clk_gpio_is_enabled g (clk_gpio_disable g (clk_gpio_disable g st)) =
      clk_gpio_is_enabled g (clk_gpio_disable g st) := by
  refine ⟨?_, ?_, ?_, ?_⟩
  · exact gpio_set_set st g.gpio _ _
  · exact gpio_set_set st g.gpio _ _
  · rw [show clk_gpio_enable g (clk_gpio_enable g st) = clk_gpio_enable g st from
      gpio_set_set st g.gpio _ _]
  · rw [show clk_gpio_disable g (clk_gpio_disable g st) = clk_gpio_disable g st from
      gpio_set_set st g.gpio _ _]

/-- C8: `is_enabled` is a pure query of the live level: it returns
`level XOR active_low` (equivalently `level == active level`), takes no
new state, and depends only on the current level of the controlled line. -/
theorem is_enabled_pure (g : clk_gpio) (st st' : GpioState)
    (h : gpio_get_value st g.gpio = gpio_get_value st' g.gpio) :
    clk_gpio_is_enabled g st = xor (gpio_get_value st g.gpio) g.active_low ∧
    clk_gpio_is_enabled g st =
      (gpio_get_value st g.gpio = (!g.active_low : Bool)) ∧
    clk_gpio_is_enabled g st = clk_gpio_is_enabled g st' := by
  refine ⟨?_, ?_, ?_⟩
  · cases hal : g.active_low <;>
      cases hv : gpio_get_value st g.gpio <;>
      simp [clk_gpio_is_enabled, hal, hv]
  · cases hal : g.active_low <;>
      cases hv : gpio_get_value st g.gpio <;>
      simp [clk_gpio_is_enabled, hal, hv]
  · simp only [clk_gpio_is_enabled, h]

/-- Witness for C8 at a concrete gate and states. -/
theorem is_enabled_pure_witness :
    clk_gpio_is_enabled ⟨42, true⟩ (fun _ => false) =
      xor (gpio_get_value (fun _ => false) 42) true ∧
    clk_gpio_is_enabled ⟨42, true⟩ (fun _ => false) =
      (gpio_get_value (fun _ => false) 42 = (!(true : Bool) : Bool)) ∧
    clk_gpio_is_enabled ⟨42, true⟩ (fun _ => false) =
      clk_gpio_is_enabled ⟨42, true⟩ (fun n => n ≠ 42) := by
  exact is_enabled_pure ⟨42, true⟩ (fun _ => false) (fun n => n ≠ 42) (by decide)

/-! ## construct-and-register: `clk_register_gpio`

Collaborator outcomes (GPIO request, allocation, clock registration) are
supplied by an oracle environment `RegEnv`; every collaborator call is
recorded in an event trace so that acquisition/release counts can be
stated.  A clock handle is an opaque `Nat`; errors are the (negative)
kernel error codes threaded as `Int`. -/

/-- `CLK_IS_BASIC` is `BIT(5)` in `linux/clk-provider.h` (header not part
of this repository's sources). -/
def CLK_IS_BASIC : Nat := 32

/-- `-ENOMEM`. -/
def ENOMEM : Int := 12

/-- `EPROBE_DEFER` error number (`linux/errno.h`). -/
def EPROBE_DEFER : Int := 517

/-- `OF_GPIO_ACTIVE_LOW` flag bit (`linux/of_gpio.h`). -/
def OF_GPIO_ACTIVE_LOW : Nat := 1

/-- One observable collaborator call made by the driver. -/
inductive REvent where
  /-- `gpio_request_one(gpio, flags, ..)`; the `Bool` is the requested
  initial output level (`true` = `GPIOF_OUT_INIT_HIGH`). -/
  | gpio_request (line : Nat) (init_high : Bool)
  /-- `devm_gpio_request_one(dev, gpio, flags, ..)`. -/
  | devm_gpio_request (line : Nat) (init_high : Bool)
  /-- `kzalloc` of the `clk_gpio` record. -/
  | kzalloc
  /-- `devm_kzalloc` of the `clk_gpio` record. -/
  | devm_kzalloc
  /-- `clk_register(dev, &clk_gpio->hw)` with the `clk_init_data`
  fields that the claims mention. -/
  | clk_register (name : String) (flags : Nat) (num_parents : Nat)
  /-- `gpio_free(gpio)`. -/
  | gpio_free (line : Nat)
  /-- `kfree(clk_gpio)`. -/
  | kfree
  /-- `pr_err(..)`. -/
  | log_err
  /-- `of_get_named_gpio_flags(node, "enable-gpios", 0, &flags)`. -/
  | of_lookup
  /-- `of_clk_get_parent_name(node, 0)`. -/
  | of_parent_lookup
deriving DecidableEq

/-- Oracle outcomes for the three fallible collaborators used by
`clk_register_gpio`. -/
structure RegEnv where
  /-- `(devm_)gpio_request_one` result: `none` = success (returns 0),
  `some e` = failure with nonzero return `e`. -/
  request_err : Option Int
  /-- whether `(devm_)kzalloc` returns a non-NULL record. -/
  alloc_ok : Bool
  /-- `clk_register` result: a handle or an `ERR_PTR` code. -/
  clk_register_res : Except Int Nat

/-- Outcome of one `clk_register_gpio` call: the returned clock or
`ERR_PTR` code, the gate record stored on success, the collaborator call
trace, and the resulting GPIO hardware state. -/
structure RegResult where
  res : Except Int Nat
  gate : Option clk_gpio
  events : List REvent
  gpioState : GpioState

/-- Shallow embedding of `clk_register_gpio(dev, name, parent_name,
flags, gpio, active_low)`.  `dev` models whether the `struct device *`
argument is non-NULL (the managed-resource branches).  Mirrors the C
control flow, including the shared `clk_register_gpio_err` label. -/
def clk_register_gpio (env : RegEnv) (dev : Bool) (name : String)
    (parent_name : Option String) (flags : Nat) (line : Nat)
    (active_low : Bool) (st : GpioState) : RegResult :=
  -- if (active_low) gpio_flags = GPIOF_OUT_INIT_LOW; else .. INIT_HIGH
  let init_high : Bool := if active_low then false else true
  let reqEvent := if dev then REvent.devm_gpio_request line init_high
                  else REvent.gpio_request line init_high
  match env.request_err with
  | some e =>
      -- pr_err; clk = ERR_PTR(err); goto clk_register_gpio_err
      { res := Except.error e
        gate := none
        events := [reqEvent, REvent.log_err] ++
          (if dev then [] else [REvent.gpio_free line])
        gpioState := st }
  | none =>
      -- the line is now owned and driven to the requested initial level
      let st1 := gpio_set_value st line init_high
      let allocEvent := if dev then REvent.devm_kzalloc else REvent.kzalloc
      if env.alloc_ok = false then
        -- pr_err; clk = ERR_PTR(-ENOMEM); goto clk_register_gpio_err
        { res := Except.error (-ENOMEM)
          gate := none
          events := [reqEvent, allocEvent, REvent.log_err] ++
            (if dev then [] else [REvent.gpio_free line])
          gpioState := st1 }
      else
        -- init.flags = flags | CLK_IS_BASIC; parents from parent_name
        let init_flags := Nat.lor flags CLK_IS_BASIC
        let num_parents := match parent_name with
          | some _ => 1
          | none => 0
        let regEvent := REvent.clk_register name init_flags num_parents
        match env.clk_register_res with
        | Except.ok c =>
            { res := Except.ok c
              gate := some { gpio := line, active_low := active_low }
              events := [reqEvent, allocEvent, regEvent]
              gpioState := st1 }
        | Except.error e =>
            -- if (!dev) kfree(clk_gpio); then the err label
            { res := Except.error e
              gate := none
              events := [reqEvent, allocEvent, regEvent] ++
                (if dev then [] else [REvent.kfree]) ++
                (if dev then [] else [REvent.gpio_free line])
              gpioState := st1 }

/-! ## Deferred registration: `of_clk_gpio_delayed_register_get`

The resolver body runs entirely under `data->lock`, so a call is atomic
with respect to other callers; concurrent executions are modelled as an
arbitrary sequence of atomic calls (`resolveSeq`). -/

/-- Mirror of `struct clk_gpio_delayed_register_data`: the description
node (we keep its name, `data->node->name`) and the cached clock
`data->clk` (`none` = NULL).  The `lock` member is modelled by the
atomicity of each call. -/
structure clk_gpio_delayed_register_data where
  node_name : String
  clk : Option Nat

/-- Per-call oracle for the resolver's collaborators:
`of_get_named_gpio_flags` result (negative = error) and the flag word it
writes, `of_clk_get_parent_name`, and the oracles of the nested
`clk_register_gpio`. -/
structure DREnv where
  of_gpio_result : Int
  of_gpio_flags : Nat
  parent_name : Option String
  reg : RegEnv

/-- Outcome of one resolver call. -/
structure DRResult where
  res : Except Int Nat
  data : clk_gpio_delayed_register_data
  events : List REvent
  gpioState : GpioState

/-- The nested call `clk_register_gpio(NULL, clk_name, parent_name, 0,
gpio, active_low)` exactly as the resolver issues it. -/
def resolveRegister (env : DREnv) (data : clk_gpio_delayed_register_data)
    (st : GpioState) : RegResult :=
  clk_register_gpio env.reg false data.node_name env.parent_name 0
    env.of_gpio_result.toNat
    (Nat.land env.of_gpio_flags OF_GPIO_ACTIVE_LOW != 0) st

/-- Shallow embedding of `of_clk_gpio_delayed_register_get`. -/
def of_clk_gpio_delayed_register_get (env : DREnv)
    (data : clk_gpio_delayed_register_data) (st : GpioState) : DRResult :=
  match data.clk with
  | some c =>
      -- if (data->clk) { mutex_unlock; return data->clk; }
      { res := Except.ok c, data := data, events := [], gpioState := st }
  | none =>
      let gp := env.of_gpio_result
      if gp < 0 then
        -- if (gpio != -EPROBE_DEFER) pr_err(..); return ERR_PTR(gpio)
        { res := Except.error gp
          data := data
          events := [REvent.of_lookup] ++
            (if gp ≠ -EPROBE_DEFER then [REvent.log_err] else [])
          gpioState := st }
      else
        let r := resolveRegister env data st
        match r.res with
        | Except.error e =>
            -- if (IS_ERR(clk)) { mutex_unlock; return clk; }
            { res := Except.error e
              data := data
              events := [REvent.of_lookup, REvent.of_parent_lookup] ++ r.events
              gpioState := r.gpioState }
        | Except.ok c =>
            -- data->clk = clk
            { res := Except.ok c
              data := { data with clk := some c }
              events := [REvent.of_lookup, REvent.of_parent_lookup] ++ r.events
              gpioState := r.gpioState }

/-- Outcome of a sequence of resolver calls. -/
structure SeqResult where
  results : List (Except Int Nat)
  data : clk_gpio_delayed_register_data
  events : List REvent
  gpioState : GpioState

/-- A mutex-serialized sequence of resolver calls, each with its own
collaborator oracle, threading the shared `data` and hardware state. -/
def resolveSeq : List DREnv → clk_gpio_delayed_register_data → GpioState →
    SeqResult
  | [], data, st =>
      { results := [], data := data, events := [], gpioState := st }
  | env :: envs, data, st =>
      let r := of_clk_gpio_delayed_register_get env data st
      let rest := resolveSeq envs r.data r.gpioState
      { results := r.res :: rest.results
        data := rest.data
        events := r.events ++ rest.events
        gpioState := rest.gpioState }

theorem resolve_cached (env : DREnv)
    (data : clk_gpio_delayed_register_data) (st : GpioState) (c : Nat)
    (hc : data.clk = some c) :
    of_clk_gpio_delayed_register_get env data st =
      { res := Except.ok c, data := data, events := [], gpioState := st } := by
  unfold of_clk_gpio_delayed_register_get
  rw [hc]

theorem resolveSeq_cached (envs : List DREnv)
    (data : clk_gpio_delayed_register_data) (st : GpioState) (c : Nat)
    (hc : data.clk = some c) :
    resolveSeq envs data st =
      { results := List.replicate envs.length (Except.ok c)
        data := data, events := [], gpioState := st } := by
  induction envs with
  | nil => simp [resolveSeq]
  | cons env envs ih =>
      simp [resolveSeq, resolve_cached env data st c hc, ih,
        List.replicate_succ]

theorem resolve_uncached (env : DREnv) (nm : String) (st : GpioState) :
    of_clk_gpio_delayed_register_get env ⟨nm, none⟩ st =
      (if env.of_gpio_result < 0 then
        { res := Except.error env.of_gpio_result
          data := ⟨nm, none⟩
          events := [REvent.of_lookup] ++
            (if env.of_gpio_result ≠ -EPROBE_DEFER then [REvent.log_err]
             else [])
          gpioState := st }
      else
        let r := resolveRegister env ⟨nm, none⟩ st
        match r.res with
        | Except.error e =>
            { res := Except.error e
              data := ⟨nm, none⟩
              events := [REvent.of_lookup, REvent.of_parent_lookup] ++
                r.events
              gpioState := r.gpioState }
        | Except.ok c =>
            { res := Except.ok c
              data := ⟨nm, some c⟩
              events := [REvent.of_lookup, REvent.of_parent_lookup] ++
                r.events
              gpioState := r.gpioState }) := rfl

theorem resolve_ok_sets (env : DREnv)
    (data : clk_gpio_delayed_register_data) (st : GpioState) (c : Nat)
    (h0 : data.clk = none)
    (hres : (of_clk_gpio_delayed_register_get env data st).res =
      Except.ok c) :
    (of_clk_gpio_delayed_register_get env data st).data =
      { node_name := data.node_name, clk := some c } := by
  obtain ⟨nm, ck⟩ := data
  cases ck with
  | some c0 => simp at h0
  | none =>
      rw [resolve_uncached] at hres ⊢
      by_cases hgp : env.of_gpio_result < 0
      · rw [if_pos hgp] at hres
        simp at hres
      · rw [if_neg hgp] at hres ⊢
        rcases hr : (resolveRegister env ⟨nm, none⟩ st).res with e | c'
        · simp only [hr] at hres
          simp at hres
        · simp only [hr] at hres ⊢
          simp at hres
          simp [hres]

theorem resolve_error_keeps (env : DREnv)
    (data : clk_gpio_delayed_register_data) (st : GpioState) (e : Int)
    (h0 : data.clk = none)
    (hres : (of_clk_gpio_delayed_register_get env data st).res =
      Except.error e) :
    (of_clk_gpio_delayed_register_get env data st).data = data := by
  obtain ⟨nm, ck⟩ := data
  cases ck with
  | some c0 => simp at h0
  | none =>
      rw [resolve_uncached]
      by_cases hgp : env.of_gpio_result < 0
      · rw [if_pos hgp]
      · rw [resolve_uncached, if_neg hgp] at hres
        rw [if_neg hgp]
        rcases hr : (resolveRegister env ⟨nm, none⟩ st).res with e' | c'
        · simp only [hr]
        · simp only [hr] at hres
          simp at hres

theorem resolve_slow_lookup (env : DREnv)
    (data : clk_gpio_delayed_register_data) (st : GpioState)
    (h0 : data.clk = none) :
    REvent.of_lookup ∈ (of_clk_gpio_delayed_register_get env data st).events := by
  obtain ⟨nm, ck⟩ := data
  cases ck with
  | some c0 => simp at h0
  | none =>
      rw [resolve_uncached]
      by_cases hgp : env.of_gpio_result < 0
      · rw [if_pos hgp]
        simp
      · rw [if_neg hgp]
        rcases hr : (resolveRegister env ⟨nm, none⟩ st).res with e' | c' <;>
          simp only [hr] <;> simp

/-- Event classifier: a GPIO line acquisition call. -/
def isAcquire : REvent → Bool
  | REvent.gpio_request _ _ => true
  | REvent.devm_gpio_request _ _ => true
  | _ => false

/-- Event classifier: a clock-tree registration call. -/
def isRegisterCall : REvent → Bool
  | REvent.clk_register _ _ _ => true
  | _ => false

/-- A resolver call on which every collaborator succeeds. -/
def goodEnv (env : DREnv) : Prop :=
  0 ≤ env.of_gpio_result ∧ env.reg.request_err = none ∧
    env.reg.alloc_ok = true ∧ ∃ c, env.reg.clk_register_res = Except.ok c

theorem resolve_good (env : DREnv)
    (data : clk_gpio_delayed_register_data) (st : GpioState)
    (h0 : data.clk = none) (hg : goodEnv env) :
    (∃ c, (of_clk_gpio_delayed_register_get env data st).res = Except.ok c ∧
      (of_clk_gpio_delayed_register_get env data st).data.clk = some c) ∧
    List.countP (fun e => isAcquire e)
      (of_clk_gpio_delayed_register_get env data st).events = 1 ∧
    List.countP (fun e => isRegisterCall e)
      (of_clk_gpio_delayed_register_get env data st).events = 1 := by
  obtain ⟨hgp, hreq, halloc, c, hclk⟩ := hg
  obtain ⟨nm, ck⟩ := data
  cases ck with
  | some c0 => simp at h0
  | none =>
      rw [resolve_uncached, if_neg (by omega)]
      have hr : (resolveRegister env ⟨nm, none⟩ st).res = Except.ok c ∧
          (resolveRegister env ⟨nm, none⟩ st).events =
            [REvent.gpio_request env.of_gpio_result.toNat
               (if (Nat.land env.of_gpio_flags OF_GPIO_ACTIVE_LOW != 0)
                then false else true),
             REvent.kzalloc,
             REvent.clk_register nm (Nat.lor 0 CLK_IS_BASIC)
               (match env.parent_name with | some _ => 1 | none => 0)] := by
        simp only [resolveRegister, clk_register_gpio, hreq, halloc, hclk]
        simp
      simp only [hr.1]
      refine ⟨⟨c, rfl, rfl⟩, ?_, ?_⟩ <;>
        simp [hr.2, List.countP_cons, isAcquire, isRegisterCall]

theorem resolveSeq_ok_unique (envs : List DREnv)
    (data : clk_gpio_delayed_register_data) (st : GpioState)
    (h0 : data.clk = none) :
    ∀ a b, Except.ok a ∈ (resolveSeq envs data st).results →
      Except.ok b ∈ (resolveSeq envs data st).results → a = b := by
  induction envs generalizing data st with
  | nil =>
      intro a b ha _
      simp [resolveSeq] at ha
  | cons env envs ih =>
      intro a b ha hb
      simp only [resolveSeq] at ha hb
      rcases hres : (of_clk_gpio_delayed_register_get env data st).res with e | c
      · have hdata := resolve_error_keeps env data st e h0 hres
        rw [hres] at ha hb
        rcases List.mem_cons.mp ha with h | h
        · simp at h
        rcases List.mem_cons.mp hb with h' | h'
        · simp at h'
        rw [hdata] at h h'
        exact ih data _ h0 a b h h'
      · have hdata := resolve_ok_sets env data st c h0 hres
        have hrest := resolveSeq_cached envs
          (of_clk_gpio_delayed_register_get env data st).data
          (of_clk_gpio_delayed_register_get env data st).gpioState c
          (by rw [hdata])
        rw [hres, hrest] at ha hb
        have key : ∀ x : Nat, Except.ok x ∈
            (Except.ok c :: List.replicate envs.length
              (Except.ok c : Except Int Nat)) → x = c := by
          intro x hx
          rcases List.mem_cons.mp hx with h | h
          · exact Except.ok.inj h
          · exact Except.ok.inj (List.eq_of_mem_replicate h)
        rw [key a ha, key b hb]

theorem resolveSeq_good_counts (envs : List DREnv)
    (data : clk_gpio_delayed_register_data) (st : GpioState)
    (h0 : data.clk = none) (hg : ∀ env ∈ envs, goodEnv env) :
    List.countP (fun e => isAcquire e) (resolveSeq envs data st).events ≤ 1 ∧
    List.countP (fun e => isRegisterCall e)
      (resolveSeq envs data st).events ≤ 1 := by
  cases envs with
  | nil => simp [resolveSeq]
  | cons env envs =>
      have hgood := hg env (List.mem_cons_self env envs)
      obtain ⟨⟨c, hres, hclk⟩, hacq, hreg⟩ := resolve_good env data st h0 hgood
      have hrest := resolveSeq_cached envs
        (of_clk_gpio_delayed_register_get env data st).data
        (of_clk_gpio_delayed_register_get env data st).gpioState c hclk
      simp only [resolveSeq, hrest]
      constructor <;> simp [List.countP_append, hacq, hreg]

/-! ## Concrete instances used by witnesses and counterexamples -/

/-- All-success collaborator oracle (registration yields handle 7). -/
def regEnvOK : RegEnv :=
  { request_err := none, alloc_ok := true, clk_register_res := Except.ok 7 }

/-- Hardware state with every line high. -/
def stHigh : GpioState := fun _ => true

/-- Resolver oracle: lookup yields line 42 with the active-low flag set,
no parent, all construction steps succeed. -/
def drEnvOK : DREnv :=
  { of_gpio_result := 42, of_gpio_flags := 1, parent_name := none
    reg := regEnvOK }

/-- Resolver state before any resolution (`data->clk == NULL`). -/
def dataNone : clk_gpio_delayed_register_data :=
  { node_name := "clk", clk := none }

/-- Resolver state with handle 7 already cached. -/
def dataSome : clk_gpio_delayed_register_data :=
  { node_name := "clk", clk := some 7 }

/-- Oracle where the GPIO request fails with `-EBUSY`. -/
def regEnvReqFail : RegEnv :=
  { request_err := some (-16), alloc_ok := true
    clk_register_res := Except.ok 7 }

/-- Oracle where the `clk_gpio` allocation fails. -/
def regEnvAllocFail : RegEnv :=
  { request_err := none, alloc_ok := false
    clk_register_res := Except.ok 7 }

/-- Oracle where `clk_register` fails with code `e`. -/
def regEnvRegFail (e : Int) : RegEnv :=
  { request_err := none, alloc_ok := true
    clk_register_res := Except.error e }

theorem register_gpioState (env : RegEnv) (dev : Bool) (name : String)
    (pn : Option String) (flags line : Nat) (al : Bool) (st : GpioState)
    (hreq : env.request_err = none) :
    (clk_register_gpio env dev name pn flags line al st).gpioState =
      gpio_set_value st line (if al then false else true) := by
  unfold clk_register_gpio
  rw [hreq]
  by_cases halloc : env.alloc_ok = false <;>
    rcases hres : env.clk_register_res with e | c <;>
      simp [halloc, hres]

/-- C1 counterexample: at line 42, `active_low = true`, no parent, all
collaborators succeeding, construction succeeds but leaves the line LOW
(the active level), and `is_enabled` on the constructed gate returns
`true`, not `false` as claimed. -/
theorem register_initializes_inactive_cex :
    (clk_register_gpio regEnvOK false "42" none 0 42 true stHigh).res =
      Except.ok 7 ∧
    (clk_register_gpio regEnvOK false "42" none 0 42 true stHigh).gpioState
      42 = false ∧
    ¬ (clk_gpio_is_enabled ⟨42, true⟩
        (clk_register_gpio regEnvOK false "42" none 0 42 true
          stHigh).gpioState = false) := by
  refine ⟨rfl, rfl, ?_⟩
  intro h
  simp [clk_gpio_is_enabled, gpio_get_value, clk_register_gpio, regEnvOK,
    gpio_set_value] at h

/-- C1 (amended): for every polarity, once the GPIO request step of
`clk_register_gpio` succeeds, the line has been driven to the ACTIVE
level for that polarity (low when `active_low`, high otherwise), so
`is_enabled` on the gate constructed by a successful registration
returns `true`; in particular for `active_low = true` the initial level
is low. -/
theorem register_initializes_active (env : RegEnv) (dev : Bool)
    (name : String) (pn : Option String) (flags line : Nat) (al : Bool)
    (st : GpioState) (hreq : env.request_err = none) :
    (clk_register_gpio env dev name pn flags line al st).gpioState line =
      !al ∧
    ∀ g, (clk_register_gpio env dev name pn flags line al st).gate =
      some g →
      clk_gpio_is_enabled g
        (clk_register_gpio env dev name pn flags line al st).gpioState =
        true := by
  have hst := register_gpioState env dev name pn flags line al st hreq
  have hgate : ∀ g,
      (clk_register_gpio env dev name pn flags line al st).gate = some g →
      g = ⟨line, al⟩ := by
    intro g hg
    unfold clk_register_gpio at hg
    rw [hreq] at hg
    by_cases halloc : env.alloc_ok = false <;>
      rcases hres : env.clk_register_res with e | c <;>
        simp [halloc, hres] at hg
    simp [hg.symm]
  constructor
  · rw [hst]
    cases al <;> simp [gpio_set_value]
  · intro g hg
    rw [hgate g hg, hst]
    cases al <;>
      simp [clk_gpio_is_enabled, gpio_get_value, gpio_set_value]

/-- Witness for the amended C1 at line 42, `active_low = true`. -/
theorem register_initializes_active_witness :
    (clk_register_gpio regEnvOK false "42" none 0 42 true stHigh).gpioState
      42 = !true ∧
    ∀ g, (clk_register_gpio regEnvOK false "42" none 0 42 true
      stHigh).gate = some g →
      clk_gpio_is_enabled g
        (clk_register_gpio regEnvOK false "42" none 0 42 true
          stHigh).gpioState = true :=
  register_initializes_active regEnvOK false "42" none 0 42 true stHigh rfl

/-- C2, evaluated at the failing input (GPIO request fails with `-EBUSY`,
`dev == NULL`): the error is returned, but the error label also runs
`gpio_free(42)` on the line that was never acquired — the code releases
a resource it does not own, contradicting the claim that nothing is
released on this path. -/
theorem register_request_failure_trace :
    (clk_register_gpio regEnvReqFail false "clk" none 0 42 true
      stHigh).res = Except.error (-16) ∧
    (clk_register_gpio regEnvReqFail false "clk" none 0 42 true
      stHigh).events =
      [REvent.gpio_request 42 false, REvent.log_err,
       REvent.gpio_free 42] := by
  exact ⟨rfl, rfl⟩

/-- On allocation failure (`dev == NULL`) the acquired line is released
exactly once; on registration failure the record is freed and the line
released, each exactly once — these two legs do match the claim. -/
theorem register_later_failure_rollback (name : String)
    (pn : Option String) (flags line : Nat) (al : Bool) (st : GpioState)
    (e : Int) :
    (clk_register_gpio regEnvAllocFail false name pn flags line al
      st).events.count (REvent.gpio_free line) = 1 ∧
    (clk_register_gpio regEnvAllocFail false name pn flags line al
      st).events.count REvent.kfree = 0 ∧
    (clk_register_gpio (regEnvRegFail e) false name pn flags line al
      st).events.count (REvent.gpio_free line) = 1 ∧
    (clk_register_gpio (regEnvRegFail e) false name pn flags line al
      st).events.count REvent.kfree = 1 := by
  refine ⟨?_, ?_, ?_, ?_⟩ <;>
    simp [clk_register_gpio, regEnvAllocFail, regEnvRegFail,
      List.count_cons]

/-- C3: once `data->clk` is non-NULL, a resolver call returns exactly
the cached handle, leaves `data` (hence the cache) unchanged, issues no
collaborator call at all (no description read, no GPIO request, no
registration), and leaves the hardware untouched. -/
theorem resolve_cached_stable (env : DREnv)
    (data : clk_gpio_delayed_register_data) (st : GpioState) (c : Nat)
    (hc : data.clk = some c) :
    (of_clk_gpio_delayed_register_get env data st).res = Except.ok c ∧
    (of_clk_gpio_delayed_register_get env data st).data = data ∧
    (of_clk_gpio_delayed_register_get env data st).data.clk = some c ∧
    (of_clk_gpio_delayed_register_get env data st).events = [] ∧
    (of_clk_gpio_delayed_register_get env data st).gpioState = st := by
  rw [resolve_cached env data st c hc]
  exact ⟨rfl, rfl, hc, rfl, rfl⟩

/-- Witness for C3 with handle 7 cached. -/
theorem resolve_cached_stable_witness :
    (of_clk_gpio_delayed_register_get drEnvOK dataSome stHigh).res =
      Except.ok 7 ∧
    (of_clk_gpio_delayed_register_get drEnvOK dataSome stHigh).data =
      dataSome ∧
    (of_clk_gpio_delayed_register_get drEnvOK dataSome stHigh).data.clk =
      some 7 ∧
    (of_clk_gpio_delayed_register_get drEnvOK dataSome stHigh).events =
      [] ∧
    (of_clk_gpio_delayed_register_get drEnvOK dataSome stHigh).gpioState =
      stHigh :=
  resolve_cached_stable drEnvOK dataSome stHigh 7 rfl

/-- Resolver oracle: the description lookup defers (`-EPROBE_DEFER`). -/
def drEnvDefer : DREnv :=
  { of_gpio_result := -EPROBE_DEFER, of_gpio_flags := 0
    parent_name := none, reg := regEnvOK }

/-- Resolver oracle: the description lookup fails hard (`-EINVAL`). -/
def drEnvBadDesc : DREnv :=
  { of_gpio_result := -22, of_gpio_flags := 0
    parent_name := none, reg := regEnvOK }

/-- Resolver oracle: lookup succeeds, `clk_register` fails with
`-EEXIST`. -/
def drEnvRegFail : DREnv :=
  { of_gpio_result := 42, of_gpio_flags := 1
    parent_name := none, reg := regEnvRegFail (-17) }

/-- C5: when the description lookup fails, the error is propagated
as-is; an error is logged exactly when the failure is not
`-EPROBE_DEFER`; and no GPIO line request and no clock-tree
registration occur (the cache also stays untouched). -/
theorem resolve_lookup_failure (env : DREnv)
    (data : clk_gpio_delayed_register_data) (st : GpioState)
    (h0 : data.clk = none) (hgp : env.of_gpio_result < 0) :
    (of_clk_gpio_delayed_register_get env data st).res =
      Except.error env.of_gpio_result ∧
    (REvent.log_err ∈
        (of_clk_gpio_delayed_register_get env data st).events ↔
      env.of_gpio_result ≠ -EPROBE_DEFER) ∧
    (∀ l lv, REvent.gpio_request l lv ∉
      (of_clk_gpio_delayed_register_get env data st).events) ∧
    (∀ l lv, REvent.devm_gpio_request l lv ∉
      (of_clk_gpio_delayed_register_get env data st).events) ∧
    (∀ n f p, REvent.clk_register n f p ∉
      (of_clk_gpio_delayed_register_get env data st).events) ∧
    (of_clk_gpio_delayed_register_get env data st).data = data := by
  obtain ⟨nm, ck⟩ := data
  cases ck with
  | some c0 => simp at h0
  | none =>
      rw [resolve_uncached, if_pos hgp]
      by_cases hd : env.of_gpio_result = -EPROBE_DEFER <;> simp [hd]

/-- Witness for C5: a deferred lookup is not logged, a hard failure is. -/
theorem resolve_lookup_failure_witness :
    (of_clk_gpio_delayed_register_get drEnvDefer dataNone stHigh).res =
      Except.error (-EPROBE_DEFER) ∧
    REvent.log_err ∉
      (of_clk_gpio_delayed_register_get drEnvDefer dataNone stHigh).events ∧
    REvent.log_err ∈
      (of_clk_gpio_delayed_register_get drEnvBadDesc dataNone
        stHigh).events :=
  ⟨(resolve_lookup_failure drEnvDefer dataNone stHigh rfl
      (by decide)).1,
   fun hmem =>
     ((resolve_lookup_failure drEnvDefer dataNone stHigh rfl
        (by decide)).2.1.mp hmem) rfl,
   (resolve_lookup_failure drEnvBadDesc dataNone stHigh rfl
      (by decide)).2.1.mpr (by decide)⟩

/-- C6: if the nested construct-and-register call fails, the resolver
returns that error, `data->clk` stays NULL, and any later call runs the
description lookup again (retry from scratch). -/
theorem resolve_register_failure (env : DREnv)
    (data : clk_gpio_delayed_register_data) (st : GpioState) (e : Int)
    (h0 : data.clk = none) (hgp : 0 ≤ env.of_gpio_result)
    (hf : (resolveRegister env data st).res = Except.error e) :
    (of_clk_gpio_delayed_register_get env data st).res =
      Except.error e ∧
    (of_clk_gpio_delayed_register_get env data st).data = data ∧
    (of_clk_gpio_delayed_register_get env data st).data.clk = none ∧
    ∀ env2 st2, REvent.of_lookup ∈
      (of_clk_gpio_delayed_register_get env2
        (of_clk_gpio_delayed_register_get env data st).data st2).events := by
  obtain ⟨nm, ck⟩ := data
  cases ck with
  | some c0 => simp at h0
  | none =>
      rw [resolve_uncached, if_neg (by omega)]
      refine ⟨?_, ?_, ?_, ?_⟩
      · simp only [hf]
      · simp only [hf]
      · simp only [hf]
      · simp only [hf]
        exact fun env2 st2 => resolve_slow_lookup env2 ⟨nm, none⟩ st2 rfl

/-- Witness for C6 with `clk_register` failing (`-EEXIST`). -/
theorem resolve_register_failure_witness :
    (of_clk_gpio_delayed_register_get drEnvRegFail dataNone stHigh).res =
      Except.error (-17) ∧
    (of_clk_gpio_delayed_register_get drEnvRegFail dataNone
      stHigh).data.clk = none :=
  ⟨(resolve_register_failure drEnvRegFail dataNone stHigh (-17) rfl
      (by decide) rfl).1,
   (resolve_register_failure drEnvRegFail dataNone stHigh (-17) rfl
      (by decide) rfl).2.2.1⟩

/-- C9: the whole resolver body runs under `data->lock`, so concurrent
executions serialize into some sequence of atomic calls.  For every such
sequence starting from the unresolved state: all calls that succeed
return one identical handle, and when the collaborators succeed (the
spec's 50-thread scenario) at most one GPIO line request and at most one
clock-tree registration occur in total — no two callers both observe
the unresolved state and construct. -/
theorem resolve_concurrent_serialized (envs : List DREnv)
    (data : clk_gpio_delayed_register_data) (st : GpioState)
    (h0 : data.clk = none) :
    (∀ a b, Except.ok a ∈ (resolveSeq envs data st).results →
      Except.ok b ∈ (resolveSeq envs data st).results → a = b) ∧
    ((∀ env ∈ envs, goodEnv env) →
      List.countP (fun e => isAcquire e)
        (resolveSeq envs data st).events ≤ 1 ∧
      List.countP (fun e => isRegisterCall e)
        (resolveSeq envs data st).events ≤ 1) :=
  ⟨resolveSeq_ok_unique envs data st h0,
   fun hg => resolveSeq_good_counts envs data st h0 hg⟩

theorem goodEnv_drEnvOK : goodEnv drEnvOK :=
  ⟨by decide, rfl, rfl, 7, rfl⟩

/-- Witness for C9: three serialized calls, all collaborators good. -/
theorem resolve_concurrent_serialized_witness :
    List.countP (fun e => isAcquire e)
      (resolveSeq [drEnvOK, drEnvOK, drEnvOK] dataNone stHigh).events
      ≤ 1 ∧
    List.countP (fun e => isRegisterCall e)
      (resolveSeq [drEnvOK, drEnvOK, drEnvOK] dataNone stHigh).events
      ≤ 1 :=
  (resolve_concurrent_serialized [drEnvOK, drEnvOK, drEnvOK] dataNone
    stHigh rfl).2
    (fun env henv => by
      rcases List.mem_cons.mp henv with h | henv
      · exact h ▸ goodEnv_drEnvOK
      rcases List.mem_cons.mp henv with h | henv
      · exact h ▸ goodEnv_drEnvOK
      rcases List.mem_cons.mp henv with h | henv
      · exact h ▸ goodEnv_drEnvOK
      simp at henv)

theorem register_events_clk_register (env : RegEnv) (dev : Bool)
    (name : String) (pn : Option String) (flags line : Nat) (al : Bool)
    (st : GpioState) (n : String) (f p : Nat)
    (h : REvent.clk_register n f p ∈
      (clk_register_gpio env dev name pn flags line al st).events) :
    f = Nat.lor flags CLK_IS_BASIC := by
  rcases hreq : env.request_err with _ | e <;>
    rcases halloc : env.alloc_ok with _ | _ <;>
      rcases hres : env.clk_register_res with e' | c <;>
        cases dev <;>
          simp [clk_register_gpio, hreq, halloc, hres] at h <;>
            tauto

/-- C10: every registration issued by `clk_register_gpio` carries
`init.flags = flags | CLK_IS_BASIC`, and every registration issued
through the deferred resolver (which passes `flags = 0`) carries exactly
`CLK_IS_BASIC`. -/
theorem clk_register_flags_is_basic (flags : Nat) :
    (∀ env dev name pn line al st n f p,
      REvent.clk_register n f p ∈
        (clk_register_gpio env dev name pn flags line al st).events →
      f = Nat.lor flags CLK_IS_BASIC) ∧
    (∀ env data st n f p,
      REvent.clk_register n f p ∈
        (of_clk_gpio_delayed_register_get env data st).events →
      f = CLK_IS_BASIC) := by
  constructor
  · intro env dev name pn line al st n f p h
    exact register_events_clk_register env dev name pn flags line al st
      n f p h
  · intro env data st n f p h
    obtain ⟨nm, ck⟩ := data
    cases ck with
    | some c0 =>
        rw [resolve_cached env ⟨nm, some c0⟩ st c0 rfl] at h
        simp at h
    | none =>
        rw [resolve_uncached] at h
        by_cases hgp : env.of_gpio_result < 0
        · rw [if_pos hgp] at h
          by_cases hd : env.of_gpio_result = -EPROBE_DEFER <;>
            simp [hd] at h
        · rw [if_neg hgp] at h
          have key : REvent.clk_register n f p ∈
              (resolveRegister env ⟨nm, none⟩ st).events →
              f = CLK_IS_BASIC := by
            intro hm
            have := register_events_clk_register env.reg false nm
              env.parent_name 0 env.of_gpio_result.toNat
              (Nat.land env.of_gpio_flags OF_GPIO_ACTIVE_LOW != 0) st
              n f p hm
            rw [this]
            decide
          rcases hr : (resolveRegister env ⟨nm, none⟩ st).res with e | c <;>
            simp only [hr] at h <;> simp at h <;> exact key h

/-- Witness for C10: caller flags 3 yield `3 | CLK_IS_BASIC = 35`; the
resolver path yields exactly `CLK_IS_BASIC = 32`. -/
theorem clk_register_flags_is_basic_witness :
    (35 : Nat) = Nat.lor 3 CLK_IS_BASIC ∧
    (32 : Nat) = CLK_IS_BASIC :=
  ⟨(clk_register_flags_is_basic 3).1 regEnvOK false "x" none 42 true
      stHigh "x" 35 0 (by decide),
   (clk_register_flags_is_basic 3).2 drEnvOK dataNone stHigh "clk" 32 0
      (by decide)⟩
